import Mathlib

/-!
Shallow embedding of the client-side chat logic of the UnblockedGPT
repository (the `ChatApp` class: session management, image staging,
request composition, relay-response handling, and localStorage
persistence).

Modelling conventions:
* The JavaScript `Map` of chats is an association list `List (String × Chat)`
  in insertion order; `Map.set` replaces in place when the key exists and
  appends otherwise, `Map.delete` removes the entry with the key, and
  `Array.from(map.keys())` is the key list in insertion order.
* ISO-8601 timestamp strings produced by `new Date().toISOString()` are
  modelled as natural-number clock values (ISO ordering coincides with
  numeric ordering, and a timestamp round-trips through JSON either way).
* DOM rendering, focus and sidebar handling are pure presentation and are
  not modelled; error entries appended to the conversation view are
  collected as a list of strings.
-/

namespace UnblockedGPT

/-- An entry of `selectedImages`: `{file, dataUrl, name}` as built in
`addImagePreview`.  The raw `File` binary is modelled as a `String`
payload. -/
structure ImageData where
  file : String
  dataUrl : String
  name : String
deriving DecidableEq, Repr

/-- A chat message as built in `sendMessage`: `{text, sender, images,
timestamp}`.  `sender` is the string `"user"` or `"assistant"`. -/
structure Message where
  text : String
  sender : String
  images : List ImageData
  timestamp : Nat
deriving DecidableEq, Repr

/-- A chat as built in `createNewChat`: `{id, title, messages, createdAt,
updatedAt}`. -/
structure Chat where
  id : String
  title : String
  messages : List Message
  createdAt : Nat
  updatedAt : Nat
deriving DecidableEq, Repr

/-- The session-store part of the `ChatApp` state: `this.chats` (a `Map`
in insertion order) and `this.currentChatId` (`null` before any chat is
current). -/
structure Store where
  chats : List (String × Chat)
  currentChatId : Option String
deriving DecidableEq, Repr

/-- JavaScript `Map.prototype.set`: replace in place when the key is
present, append otherwise. -/
def mapSet (m : List (String × Chat)) (k : String) (v : Chat) :
    List (String × Chat) :=
  if k ∈ m.map Prod.fst then
    m.map (fun p => if p.1 = k then (k, v) else p)
  else
    m ++ [(k, v)]

/-- JavaScript `Map.prototype.delete`: remove the entry with the key. -/
def mapDelete (m : List (String × Chat)) (k : String) :
    List (String × Chat) :=
  m.filter (fun p => p.1 ≠ k)

/-- JavaScript `Map.prototype.get`. -/
def mapGet (m : List (String × Chat)) (k : String) : Option Chat :=
  (m.find? (fun p => p.1 = k)).map Prod.snd

/-- `createNewChat`: a fresh chat with id `'chat_' + Date.now()`, title
`"New Chat"`, empty messages and `createdAt = updatedAt = now`, inserted
into the map and made current. -/
def createNewChat (s : Store) (now : Nat) : Store :=
  let chatId := "chat_" ++ toString now
  let chat : Chat :=
    { id := chatId, title := "New Chat", messages := []
      createdAt := now, updatedAt := now }
  { chats := mapSet s.chats chatId chat, currentChatId := some chatId }

/-- `switchToChat`: set `currentChatId` when the id is in the map, no-op
otherwise (`if (!this.chats.has(chatId)) return`). -/
def switchToChat (s : Store) (chatId : String) : Store :=
  if chatId ∈ s.chats.map Prod.fst then
    { s with currentChatId := some chatId }
  else s

/-- `deleteChat`: refuse when at most one chat remains; otherwise delete
the entry, and when the deleted chat was current, switch to
`remainingChats[remainingChats.length - 1]` — the last key of the map in
insertion order (an absent index gives `undefined`, which `switchToChat`
ignores, modelled by the `""` default). -/
def deleteChat (s : Store) (chatId : String) : Store :=
  if s.chats.length ≤ 1 then s
  else
    let s1 : Store := { s with chats := mapDelete s.chats chatId }
    if s.currentChatId = some chatId then
      switchToChat s1 ((s1.chats.map Prod.fst).getLastD "")
    else s1

/-- `updateChatTitle`, restricted to the chat record it mutates: sets the
title and refreshes `updatedAt`.  (The source looks the chat up in the
map by id; `sendMessage` only ever calls it on the current chat.) -/
def updateChatTitle (c : Chat) (newTitle : String) (now : Nat) : Chat :=
  { c with title := newTitle, updatedAt := now }

/-- One store operation of the kind claim C1 quantifies over.  A `create`
carries the `Date.now()` value used for the fresh id and timestamps. -/
inductive StoreOp where
  | create (now : Nat)
  | delete (chatId : String)
deriving DecidableEq, Repr

/-- Apply one store operation. -/
def applyOp (s : Store) : StoreOp → Store
  | .create now => createNewChat s now
  | .delete chatId => deleteChat s chatId

/-- Run a sequence of store operations left to right. -/
def runOps (s : Store) : List StoreOp → Store
  | [] => s
  | op :: ops => runOps (applyOp s op) ops

/-- The store state right after `initializeApp` on a fresh profile: no
stored chats, so `createNewChat` runs once. -/
def initStore (now : Nat) : Store :=
  createNewChat { chats := [], currentChatId := none } now

/-- The invariant of claim C1: the map is never empty and the current
pointer references a key present in the map. -/
def storeInvariant (s : Store) : Prop :=
  s.chats ≠ [] ∧ ∃ cid, s.currentChatId = some cid ∧ cid ∈ s.chats.map Prod.fst

/-- Well-formedness maintained by the operations: keys are unique (a
structural property of the JavaScript `Map`) together with the
invariant. -/
def storeWF (s : Store) : Prop :=
  (s.chats.map Prod.fst).Nodup ∧ storeInvariant s

/-- ECMAScript `Array.prototype.splice(start, 1)` on the staged-image
array: a negative `start` counts from the end of the array and is clamped
to the front; a `start` beyond the end removes nothing; otherwise exactly
the element at the resolved position is removed. -/
def spliceOne (l : List ImageData) (start : Int) : List ImageData :=
  let len : Int := l.length
  let actualStart : Nat :=
    (if start < 0 then max (len + start) 0 else min start len).toNat
  l.take actualStart ++ l.drop (actualStart + 1)

/-- `removeImage`: `this.selectedImages.splice(index, 1)`. -/
def removeImage (selectedImages : List ImageData) (index : Int) :
    List ImageData :=
  spliceOne selectedImages index

/-- The fragment of JSON this application serializes.  Numbers are the
natural-number clock values standing in for ISO timestamp strings. -/
inductive Json where
  | null
  | bool (b : Bool)
  | num (n : Nat)
  | str (s : String)
  | arr (elems : List Json)
  | obj (fields : List (String × Json))
deriving Repr

/-- Lower-case hexadecimal digit, for `JSON.stringify` control-character
escapes. -/
def hexDigit (n : Nat) : Char :=
  if n < 10 then Char.ofNat (48 + n) else Char.ofNat (87 + n)

/-- `JSON.stringify` escaping of a single character inside a string
literal. -/
def escapeJsonChar (c : Char) : String :=
  if c = '"' then "\\\""
  else if c = '\\' then "\\\\"
  else if c = '\n' then "\\n"
  else if c = '\r' then "\\r"
  else if c = '\t' then "\\t"
  else if c = '\x08' then "\\b"
  else if c = '\x0c' then "\\f"
  else if c.toNat < 32 then
    "\\u00" ++ String.singleton (hexDigit (c.toNat / 16)) ++
      String.singleton (hexDigit (c.toNat % 16))
  else String.singleton c

/-- `JSON.stringify` of a string value. -/
def renderJsonString (s : String) : String :=
  "\"" ++ String.join (s.toList.map escapeJsonChar) ++ "\""

mutual

/-- `JSON.stringify` of a JSON value. -/
def Json.render : Json → String
  | .null => "null"
  | .bool b => if b then "true" else "false"
  | .num n => toString n
  | .str s => renderJsonString s
  | .arr elems => "[" ++ renderJsonItems elems ++ "]"
  | .obj fields => "\x7b" ++ renderJsonFields fields ++ "\x7d"

/-- Comma-separated rendering of array elements. -/
def renderJsonItems : List Json → String
  | [] => ""
  | [j] => j.render
  | j :: rest => j.render ++ "," ++ renderJsonItems rest

/-- Comma-separated rendering of object fields. -/
def renderJsonFields : List (String × Json) → String
  | [] => ""
  | [(k, v)] => renderJsonString k ++ ":" ++ v.render
  | (k, v) :: rest =>
    renderJsonString k ++ ":" ++ v.render ++ "," ++ renderJsonFields rest

end

/-- `JSON.stringify` of a staged image record `{file, dataUrl, name}`.
The `file` field holds a DOM `File` object, which `JSON.stringify`
serializes as the empty object (it has no enumerable own properties); the
raw binary is therefore not persisted. -/
def imageToJson (i : ImageData) : Json :=
  Json.obj
    [("file", Json.obj []), ("dataUrl", Json.str i.dataUrl),
     ("name", Json.str i.name)]

/-- `JSON.stringify` of a message record. -/
def messageToJson (m : Message) : Json :=
  Json.obj
    [("text", Json.str m.text), ("sender", Json.str m.sender),
     ("images", Json.arr (m.images.map imageToJson)),
     ("timestamp", Json.num m.timestamp)]

/-- `JSON.stringify` of a chat record. -/
def chatToJson (c : Chat) : Json :=
  Json.obj
    [("id", Json.str c.id), ("title", Json.str c.title),
     ("messages", Json.arr (c.messages.map messageToJson)),
     ("createdAt", Json.num c.createdAt), ("updatedAt", Json.num c.updatedAt)]

/-- `saveChatsToStorage`: `JSON.stringify(Array.from(this.chats.entries()))`,
modelled at the JSON-value level (`JSON.stringify`/`JSON.parse` are a
faithful bijection between these values and their text for this data, so
the string layer is elided).  The second storage key, holding
`currentChatId`, is a plain string and is not part of claim C8. -/
def saveChatsToStorage (chats : List (String × Chat)) : Json :=
  Json.arr (chats.map (fun p => Json.arr [Json.str p.1, chatToJson p.2]))

/-- Field access on a parsed JSON object, as the application performs on
loaded chats. -/
def Json.getField (j : Json) (k : String) : Option Json :=
  match j with
  | .obj fields => fields.lookup k
  | _ => none

def Json.asStr : Json → Option String
  | .str s => some s
  | _ => none

def Json.asNum : Json → Option Nat
  | .num n => some n
  | _ => none

def Json.asArr : Json → Option (List Json)
  | .arr elems => some elems
  | _ => none

/-- Decode every element of a parsed JSON array. -/
def decodeList (f : Json → Option α) : List Json → Option (List α)
  | [] => some []
  | j :: rest =>
    match f j, decodeList f rest with
    | some a, some t => some (a :: t)
    | _, _ => none

/-- A staged-image record as it comes back out of storage: `dataUrl` and
`name` are read back; the `file` field was stringified to the empty
object, so the binary payload is unrecoverable and is modelled as the
empty payload (the application never reads `file` from a loaded chat). -/
def imageOfJson (j : Json) : Option ImageData :=
  match (j.getField "dataUrl").bind Json.asStr,
      (j.getField "name").bind Json.asStr with
  | some d, some n => some { file := "", dataUrl := d, name := n }
  | _, _ => none

/-- A message record as read back from storage. -/
def messageOfJson (j : Json) : Option Message :=
  match (j.getField "text").bind Json.asStr,
      (j.getField "sender").bind Json.asStr,
      ((j.getField "images").bind Json.asArr).bind (decodeList imageOfJson),
      (j.getField "timestamp").bind Json.asNum with
  | some t, some s, some imgs, some ts =>
    some { text := t, sender := s, images := imgs, timestamp := ts }
  | _, _, _, _ => none

/-- A chat record as read back from storage. -/
def chatOfJson (j : Json) : Option Chat :=
  match (j.getField "id").bind Json.asStr,
      (j.getField "title").bind Json.asStr,
      ((j.getField "messages").bind Json.asArr).bind (decodeList messageOfJson),
      (j.getField "createdAt").bind Json.asNum,
      (j.getField "updatedAt").bind Json.asNum with
  | some i, some t, some msgs, some ca, some ua =>
    some { id := i, title := t, messages := msgs, createdAt := ca, updatedAt := ua }
  | _, _, _, _, _ => none

/-- One `[identifier, chat]` entry of the stored array. -/
def entryOfJson (j : Json) : Option (String × Chat) :=
  match j with
  | .arr [.str k, cj] => (chatOfJson cj).map (fun c => (k, c))
  | _ => none

/-- `loadChatsFromStorage`: `new Map(JSON.parse(chatsData))`, with the
field accesses the application subsequently performs on each loaded chat
made explicit. -/
def loadChatsFromStorage (j : Json) : Option (List (String × Chat)) :=
  match j with
  | .arr entries => decodeList entryOfJson entries
  | _ => none

/-- What storage provably loses: the raw `file` binary of each staged
image bundled into a message. -/
def stripImage (i : ImageData) : ImageData :=
  { i with file := "" }

def stripMessage (m : Message) : Message :=
  { m with images := m.images.map stripImage }

def stripChat (c : Chat) : Chat :=
  { c with messages := c.messages.map stripMessage }

/-- The equality claim C8 asserts for a loaded image: preview
representation and name. -/
def imageObsEq (a b : ImageData) : Bool :=
  a.dataUrl == b.dataUrl && a.name == b.name

/-- The equality claim C8 asserts for a loaded message: text, sender,
timestamp, and the attachments pointwise in order. -/
def messageObsEq (a b : Message) : Bool :=
  a.text == b.text && a.sender == b.sender && a.timestamp == b.timestamp &&
  a.images.length == b.images.length &&
  (a.images.zip b.images).all (fun p => imageObsEq p.1 p.2)

/-- The equality claim C8 asserts for a loaded chat: identifier, title,
timestamps, and the messages pointwise in order. -/
def chatObsEq (a b : Chat) : Bool :=
  a.id == b.id && a.title == b.title && a.createdAt == b.createdAt &&
  a.updatedAt == b.updatedAt && a.messages.length == b.messages.length &&
  (a.messages.zip b.messages).all (fun p => messageObsEq p.1 p.2)

/-- The equality claim C8 asserts for a loaded collection: same entries in
the same order, each pair observably equal. -/
def chatsObsEq (xs ys : List (String × Chat)) : Bool :=
  xs.length == ys.length &&
  (xs.zip ys).all (fun p => p.1.1 == p.2.1 && chatObsEq p.1.2 p.2.2)

/-- A value appended to the `FormData` request body: a string field or a
file's binary payload. -/
inductive FormValue where
  | str (s : String)
  | file (payload : String)
deriving DecidableEq, Repr

/-- The request body `sendMessage` builds: either the JSON object
`{message, conversation}` or a multipart form, represented as its ordered
field list. -/
inductive RequestBody where
  | json (message : String) (conversation : List Message)
  | form (fields : List (String × FormValue))
deriving DecidableEq, Repr

/-- The parsed relay response body: an optional `error` field and the
`response` text. -/
structure RelayBody where
  error : Option String
  response : String
deriving DecidableEq, Repr

/-- The outcome of the `fetch('/api/chat')` call: an HTTP response with a
status and parsed body, or a rejection (network failure or an unparsable
body), carrying the thrown error's message. -/
inductive RelayResult where
  | http (status : Nat) (body : RelayBody)
  | network (message : String)
deriving DecidableEq, Repr

/-- `Response.ok`: status in the inclusive range 200–299. -/
def respOk (status : Nat) : Bool :=
  200 ≤ status && status ≤ 299

/-- JavaScript truthiness of `data.error`: present and a non-empty
string. -/
def errTruthy : Option String → Bool
  | none => false
  | some e => e != ""

/-- `relayFails`: the relay outcomes that land in the `catch` block of
`sendMessage` — a rejected fetch, a non-2xx status, or a 2xx body whose
`error` field is truthy. -/
def relayFails : RelayResult → Bool
  | .network _ => true
  | .http status body => !respOk status || errTruthy body.error

/-- ECMAScript white space for `String.prototype.trim`: space, tab, line
feed, carriage return, vertical tab, form feed, no-break space and the
byte-order mark (the rarer Unicode space separators are not needed for
any input considered here). -/
def isJsWhitespace (c : Char) : Bool :=
  c = ' ' || c = '\t' || c = '\n' || c = '\r' || c.toNat = 11 ||
  c.toNat = 12 || c.toNat = 0xa0 || c.toNat = 0xfeff

/-- ECMAScript `String.prototype.trim`, on the character list. -/
def jsTrim (s : String) : String :=
  String.mk (((s.data.dropWhile isJsWhitespace).reverse.dropWhile
    isJsWhitespace).reverse)

/-- ECMAScript `String.prototype.substring(0, n)`.  (JavaScript indexes
UTF-16 code units; characters coincide with them on all material here.) -/
def jsSubstring (s : String) (n : Nat) : String :=
  String.mk (s.data.take n)

/-- Title derivation from the first message (`sendMessage`, lines
354–358): first 30 characters plus `"..."` when longer than 30. -/
def deriveTitle (message : String) : String :=
  if message.length > 30 then jsSubstring message 30 ++ "..." else message

/-- The pre-request mutation of the current chat in `sendMessage`: push
the user message, and when it is the only message and the text is
non-empty, derive the title via `updateChatTitle` (which also refreshes
`updatedAt`). -/
def appendUserMessage (c : Chat) (message : String) (imgs : List ImageData)
    (now : Nat) : Chat :=
  let userMessage : Message :=
    { text := message, sender := "user", images := imgs, timestamp := now }
  let c1 : Chat := { c with messages := c.messages ++ [userMessage] }
  if c1.messages.length = 1 ∧ message ≠ "" then
    updateChatTitle c1 (deriveTitle message) now
  else c1

/-- The success-path mutation of the current chat in `sendMessage`: push
the assistant message and refresh `updatedAt`. -/
def appendAssistantMessage (c : Chat) (text : String) (now2 : Nat) : Chat :=
  { c with
    messages := c.messages ++
      [{ text := text, sender := "assistant", images := [], timestamp := now2 }]
    updatedAt := now2 }

/-- Request composition in `sendMessage` (lines 370–394): with staged
images, a `FormData` body with fields `message`, `conversation`
(the JSON text of the history) and one repeated `images` entry per staged
image, and no manually set header; without images, the JSON body
`{message, conversation}` with a `Content-Type: application/json`
header. -/
def composeRequest (message : String) (messagImages : List ImageData)
    (conversationHistory : List Message) :
    RequestBody × List (String × String) :=
  if messagImages ≠ [] then
    (RequestBody.form
      ([("message", FormValue.str message),
        ("conversation", FormValue.str
          (Json.render (Json.arr (conversationHistory.map messageToJson))))] ++
        messagImages.map (fun i => ("images", FormValue.file i.file))), [])
  else
    (RequestBody.json message conversationHistory,
      [("Content-Type", "application/json")])

/-- The observable outcome of one `sendMessage` call: the current chat
afterwards, `selectedImages` afterwards, the request issued (none when the
input was trivial), and the error entries appended to the view. -/
structure SendResult where
  chat : Chat
  selectedImages : List ImageData
  request : Option (RequestBody × List (String × String))
  errors : List String
deriving DecidableEq, Repr

/-- `sendMessage`, over the current chat: trim the input; return when text
and staged images are both empty; push the user message (deriving the
title on a first message); clear the staged images; compose the request
from the history excluding the just-pushed message
(`messages.slice(0, -1)`); then handle the relay outcome — a non-ok
status throws `HTTP error! status: <status>` before the body is read, a
truthy body `error` field throws that message, and otherwise the
assistant message is appended; every throw is caught and surfaced as an
error entry `Error: <message>`. -/
def sendMessage (currentChat : Chat) (selectedImages : List ImageData)
    (input : String) (relay : RelayResult) (now now2 : Nat) : SendResult :=
  let message := jsTrim input
  if message = "" ∧ selectedImages = [] then
    { chat := currentChat, selectedImages := selectedImages,
      request := none, errors := [] }
  else
    let c2 := appendUserMessage currentChat message selectedImages now
    let req := composeRequest message selectedImages c2.messages.dropLast
    match relay with
    | .network msg =>
      { chat := c2, selectedImages := [], request := some req,
        errors := ["Error: " ++ msg] }
    | .http status body =>
      if respOk status = false then
        { chat := c2, selectedImages := [], request := some req,
          errors := ["Error: HTTP error! status: " ++ toString status] }
      else if errTruthy body.error then
        { chat := c2, selectedImages := [], request := some req,
          errors := ["Error: " ++ body.error.getD ""] }
      else
        { chat := appendAssistantMessage c2 body.response now2,
          selectedImages := [], request := some req, errors := [] }

/-- The error-entry text produced by the `catch` block for each failing
relay outcome: a rejected fetch surfaces the rejection's message, a
non-ok status surfaces `HTTP error! status: <status>` (thrown before the
body is read), and an ok status with a truthy body `error` field
surfaces that field, each prefixed `Error: ` by `addErrorMessage`. -/
def failMessage : RelayResult → String
  | .network m => "Error: " ++ m
  | .http status body =>
    if respOk status = false then
      "Error: HTTP error! status: " ++ toString status
    else "Error: " ++ body.error.getD ""

/-- Concrete chats used to falsify claims at explicit inputs. -/
def exChatA : Chat :=
  { id := "a", title := "A", messages := [], createdAt := 0, updatedAt := 5 }

def exChatB : Chat :=
  { id := "b", title := "B", messages := [], createdAt := 1, updatedAt := 3 }

def exChatC : Chat :=
  { id := "c", title := "C", messages := [], createdAt := 2, updatedAt := 4 }

/-- Three chats in insertion order `a`, `b`, `c`; chat `a` is the most
recently updated and chat `c` is current. -/
def exStore : Store :=
  { chats := [("a", exChatA), ("b", exChatB), ("c", exChatC)],
    currentChatId := some "c" }

def exImg1 : ImageData :=
  { file := "f1", dataUrl := "d1", name := "one.png" }

def exImg2 : ImageData :=
  { file := "f2", dataUrl := "d2", name := "two.png" }

/-- A freshly created chat, as `createNewChat` builds it. -/
def exChat0 : Chat :=
  { id := "chat_0", title := "New Chat", messages := [], createdAt := 0,
    updatedAt := 0 }

/-- A chat already holding one message, last updated at time 5. -/
def exChatOld : Chat :=
  { id := "chat_1", title := "T",
    messages :=
      [{ text := "earlier", sender := "user", images := [], timestamp := 4 }],
    createdAt := 0, updatedAt := 5 }

theorem mapSet_keys (m : List (String × Chat)) (k : String) (v : Chat) :
    (mapSet m k v).map Prod.fst =
      if k ∈ m.map Prod.fst then m.map Prod.fst else m.map Prod.fst ++ [k] := by
  unfold mapSet
  split
  · rw [List.map_map]
    apply List.map_congr_left
    intro p _
    by_cases h : p.1 = k <;> simp [h]
  · simp

theorem mapDelete_keys (m : List (String × Chat)) (k : String) :
    (mapDelete m k).map Prod.fst = (m.map Prod.fst).filter (fun x => x ≠ k) := by
  unfold mapDelete
  induction m with
  | nil => simp
  | cons p rest ih =>
    simp only [ne_eq, decide_not] at ih
    by_cases h : p.1 = k <;> simp [h, ih]

theorem mapSet_mem_keys (m : List (String × Chat)) (k : String) (v : Chat) :
    k ∈ (mapSet m k v).map Prod.fst := by
  rw [mapSet_keys]
  split
  · assumption
  · simp

theorem mapSet_nodup_keys (m : List (String × Chat)) (k : String) (v : Chat)
    (h : (m.map Prod.fst).Nodup) : ((mapSet m k v).map Prod.fst).Nodup := by
  rw [mapSet_keys]
  split
  · exact h
  · rename_i hnot
    exact h.append (List.nodup_singleton _)
      (fun a ha hb => by simp at hb; subst hb; exact hnot ha)

theorem mapSet_ne_nil (m : List (String × Chat)) (k : String) (v : Chat) :
    mapSet m k v ≠ [] := by
  intro hnil
  have := mapSet_mem_keys m k v
  rw [hnil] at this
  simp at this

theorem createNewChat_wf (s : Store) (now : Nat)
    (h : (s.chats.map Prod.fst).Nodup) : storeWF (createNewChat s now) := by
  refine ⟨mapSet_nodup_keys _ _ _ h, mapSet_ne_nil _ _ _, _, rfl, mapSet_mem_keys _ _ _⟩

theorem getLastD_mem (l : List String) (d : String) (h : l ≠ []) :
    l.getLastD d ∈ l := by
  induction l generalizing d with
  | nil => exact absurd rfl h
  | cons a t ih =>
    cases t with
    | nil => simp [List.getLastD]
    | cons b t2 =>
      rw [List.getLastD_cons]
      exact List.mem_cons_of_mem _ (ih a (by simp))

theorem filter_ne_nil_of_nodup (l : List String) (k : String) (hnd : l.Nodup)
    (hlen : 2 ≤ l.length) : l.filter (fun x => x ≠ k) ≠ [] := by
  intro h0
  rw [List.filter_eq_nil_iff] at h0
  cases l with
  | nil => simp at hlen
  | cons a t =>
    cases t with
    | nil => simp at hlen
    | cons b t2 =>
      have ha : a = k := by simpa using h0 a (by simp)
      have hb : b = k := by simpa using h0 b (by simp)
      have hab : a ≠ b := by
        have hmem := (List.nodup_cons.mp hnd).1
        intro h1
        exact hmem (h1 ▸ List.mem_cons_self b t2)
      exact hab (ha.trans hb.symm)

theorem deleteChat_wf (s : Store) (chatId : String) (h : storeWF s) :
    storeWF (deleteChat s chatId) := by
  obtain ⟨hnd, hne, cid, hcur, hmem⟩ := h
  unfold deleteChat
  split
  · exact ⟨hnd, hne, cid, hcur, hmem⟩
  · rename_i hlen
    push_neg at hlen
    have hkeys1 : (mapDelete s.chats chatId).map Prod.fst
        = (s.chats.map Prod.fst).filter (fun x => x ≠ chatId) := mapDelete_keys _ _
    have hnd1 : ((mapDelete s.chats chatId).map Prod.fst).Nodup := by
      rw [hkeys1]; exact hnd.filter _
    have hlen2 : 2 ≤ (s.chats.map Prod.fst).length := by simpa using hlen
    have hk1ne : (mapDelete s.chats chatId).map Prod.fst ≠ [] := by
      rw [hkeys1]; exact filter_ne_nil_of_nodup _ _ hnd hlen2
    have hchatsne : mapDelete s.chats chatId ≠ [] := by
      intro h0; rw [h0] at hk1ne; exact hk1ne rfl
    split
    · unfold switchToChat
      have hlast : ((mapDelete s.chats chatId).map Prod.fst).getLastD "" ∈
          (mapDelete s.chats chatId).map Prod.fst := getLastD_mem _ _ hk1ne
      rw [if_pos hlast]
      exact ⟨hnd1, hchatsne, _, rfl, hlast⟩
    · rename_i hcurne
      have hcidne : cid ≠ chatId := by
        intro h0; exact hcurne (by rw [hcur, h0])
      refine ⟨hnd1, hchatsne, cid, hcur, ?_⟩
      rw [hkeys1]
      simp only [List.mem_filter]
      exact ⟨hmem, by simpa using hcidne⟩

theorem runOps_wf (s : Store) (ops : List StoreOp) (h : storeWF s) :
    storeWF (runOps s ops) := by
  induction ops generalizing s with
  | nil => exact h
  | cons op ops ih =>
    apply ih
    cases op with
    | create now => exact createNewChat_wf _ _ h.1
    | delete chatId => exact deleteChat_wf _ _ h

theorem initStore_wf (now : Nat) : storeWF (initStore now) :=
  createNewChat_wf _ _ (by simp)

/-- Claim C1: for every sequence of `createNewChat`/`deleteChat` operations
starting from an initialized store, the session map never reaches zero
sessions and the current-session pointer always references an identifier
present in the map. -/
theorem createDelete_store_invariant (now : Nat) (ops : List StoreOp) :
    storeInvariant (runOps (initStore now) ops) :=
  (runOps_wf _ ops (initStore_wf now)).2

/-- Deleting the current chat (with at least two chats and duplicate-free
keys) switches the current pointer to the last key, in insertion order, of
the remaining map. -/
theorem deleteChat_current_lastKey (s : Store) (chatId : String)
    (hnd : (s.chats.map Prod.fst).Nodup) (hlen : 2 ≤ s.chats.length)
    (hcur : s.currentChatId = some chatId) :
    (deleteChat s chatId).currentChatId =
      some (((mapDelete s.chats chatId).map Prod.fst).getLastD "") := by
  unfold deleteChat
  rw [if_neg (by omega), if_pos hcur]
  unfold switchToChat
  have hlen2 : 2 ≤ (s.chats.map Prod.fst).length := by simpa using hlen
  have hk1ne : (mapDelete s.chats chatId).map Prod.fst ≠ [] := by
    rw [mapDelete_keys]; exact filter_ne_nil_of_nodup _ _ hnd hlen2
  rw [if_pos (getLastD_mem _ _ hk1ne)]

/-- Claim C4 counterexample: in `exStore` the current chat `c` is deleted;
the new current chat is `b` — the last remaining key in insertion order —
even though the remaining chat `a` has the strictly greater `updatedAt`
(5 over 3).  `deleteChat` does not select the most-recently-updated
remaining session. -/
theorem deleteChat_not_most_recent :
    (deleteChat exStore "c").currentChatId = some "b" ∧
    (mapGet (deleteChat exStore "c").chats "b").map Chat.updatedAt = some 3 ∧
    (mapGet (deleteChat exStore "c").chats "a").map Chat.updatedAt = some 5 := by
  decide

/-- Claim C4 (amended): with at least two sessions, deleting the current
session sets the current pointer to the last remaining session in the
map's insertion order (which is the most-recently-updated one only when
that session happens to be last). -/
theorem deleteChat_current_switches_to_lastKey (s : Store) (chatId : String)
    (hnd : (s.chats.map Prod.fst).Nodup) (hlen : 2 ≤ s.chats.length)
    (hcur : s.currentChatId = some chatId) :
    (deleteChat s chatId).currentChatId =
      some (((mapDelete s.chats chatId).map Prod.fst).getLastD "") :=
  deleteChat_current_lastKey s chatId hnd hlen hcur

/-- Witness for the amended claim C4 at the concrete store `exStore`. -/
theorem deleteChat_current_switches_to_lastKey_witness :
    (deleteChat exStore "c").currentChatId =
      some (((mapDelete exStore.chats "c").map Prod.fst).getLastD "") :=
  deleteChat_current_switches_to_lastKey exStore "c" (by decide) (by decide) rfl

/-- Claim C7 counterexample: `removeImage` with index `-3` on a staged
sequence of two images — an index out of bounds of the sequence — does
not leave the sequence unchanged: following `Array.prototype.splice`, the
negative start counts from the end, clamps to the front, and removes the
first image. -/
theorem removeImage_out_of_bounds_changes :
    removeImage [exImg1, exImg2] (-3) = [exImg2] ∧
    removeImage [exImg1, exImg2] (-3) ≠ [exImg1, exImg2] := by
  decide

/-- Claim C7 (amended): `removeImage` with a valid index `0 ≤ i < length`
removes exactly the staged attachment at that index, preserving the order
of the rest; an index at or beyond the length leaves the staged sequence
unchanged.  (A negative index follows `splice` semantics — it counts from
the end, clamped to the front — rather than leaving the sequence
unchanged.) -/
theorem removeImage_spec (l : List ImageData) (i : Int) :
    (0 ≤ i → i < (l.length : Int) →
      removeImage l i = l.take i.toNat ++ l.drop (i.toNat + 1)) ∧
    ((l.length : Int) ≤ i → removeImage l i = l) := by
  constructor
  · intro h0 hlt
    simp only [removeImage, spliceOne]
    rw [if_neg (not_lt.mpr h0), min_eq_left (le_of_lt hlt)]
  · intro hle
    have h0 : (0 : Int) ≤ i := le_trans (Int.natCast_nonneg _) hle
    simp only [removeImage, spliceOne]
    rw [if_neg (not_lt.mpr h0), min_eq_right hle]
    rw [Int.toNat_natCast]
    rw [List.take_length, List.drop_eq_nil_of_le (by omega)]
    simp

/-- Witness for the amended claim C7: staging two files then removing
index 0 leaves exactly the second file. -/
theorem removeImage_spec_witness :
    removeImage [exImg1, exImg2] 0 = [exImg2] :=
  ((removeImage_spec [exImg1, exImg2] 0).1 (by decide) (by decide)).trans
    (by decide)

theorem imageOfJson_imageToJson (i : ImageData) :
    imageOfJson (imageToJson i) = some (stripImage i) := rfl

theorem decodeList_map_imageOfJson (l : List ImageData) :
    decodeList imageOfJson (l.map imageToJson) = some (l.map stripImage) := by
  induction l with
  | nil => rfl
  | cons i rest ih => simp [decodeList, imageOfJson_imageToJson, ih]

theorem messageOfJson_messageToJson (m : Message) :
    messageOfJson (messageToJson m) = some (stripMessage m) := by
  have h3 : (((messageToJson m).getField "images").bind Json.asArr).bind
      (decodeList imageOfJson) = some (m.images.map stripImage) :=
    decodeList_map_imageOfJson m.images
  unfold messageOfJson
  rw [h3]
  rfl

theorem decodeList_map_messageOfJson (l : List Message) :
    decodeList messageOfJson (l.map messageToJson) =
      some (l.map stripMessage) := by
  induction l with
  | nil => rfl
  | cons m rest ih => simp [decodeList, messageOfJson_messageToJson, ih]

theorem chatOfJson_chatToJson (c : Chat) :
    chatOfJson (chatToJson c) = some (stripChat c) := by
  have h3 : (((chatToJson c).getField "messages").bind Json.asArr).bind
      (decodeList messageOfJson) = some (c.messages.map stripMessage) :=
    decodeList_map_messageOfJson c.messages
  unfold chatOfJson
  rw [h3]
  rfl

theorem entryOfJson_saved (p : String × Chat) :
    entryOfJson (Json.arr [Json.str p.1, chatToJson p.2]) =
      some (p.1, stripChat p.2) := by
  show (chatOfJson (chatToJson p.2)).map (fun c => (p.1, c)) = _
  rw [chatOfJson_chatToJson]
  rfl

theorem loadChats_saveChats (chats : List (String × Chat)) :
    loadChatsFromStorage (saveChatsToStorage chats) =
      some (chats.map (fun p => (p.1, stripChat p.2))) := by
  show decodeList entryOfJson
      (chats.map fun p => Json.arr [Json.str p.1, chatToJson p.2]) = _
  induction chats with
  | nil => rfl
  | cons p rest ih => simp [decodeList, entryOfJson_saved, ih]

theorem imageObsEq_strip (i : ImageData) :
    imageObsEq i (stripImage i) = true := by
  simp [imageObsEq, stripImage]

theorem zipAll_imageObsEq (l : List ImageData) :
    ((l.zip (l.map stripImage)).all fun p => imageObsEq p.1 p.2) = true := by
  induction l with
  | nil => rfl
  | cons i rest ih => simp [ih, imageObsEq_strip]

theorem messageObsEq_strip (m : Message) :
    messageObsEq m (stripMessage m) = true := by
  simp [messageObsEq, stripMessage, zipAll_imageObsEq]

theorem zipAll_messageObsEq (l : List Message) :
    ((l.zip (l.map stripMessage)).all fun p => messageObsEq p.1 p.2) = true := by
  induction l with
  | nil => rfl
  | cons m rest ih => simp [ih, messageObsEq_strip]

theorem chatObsEq_strip (c : Chat) : chatObsEq c (stripChat c) = true := by
  simp [chatObsEq, stripChat, zipAll_messageObsEq]

theorem zipAll_chatObsEq (chats : List (String × Chat)) :
    ((chats.zip (chats.map fun p => (p.1, stripChat p.2))).all
      fun p => p.1.1 == p.2.1 && chatObsEq p.1.2 p.2.2) = true := by
  induction chats with
  | nil => rfl
  | cons p rest ih => simp [ih, chatObsEq_strip]

theorem chatsObsEq_strip (chats : List (String × Chat)) :
    chatsObsEq chats (chats.map fun p => (p.1, stripChat p.2)) = true := by
  unfold chatsObsEq
  rw [zipAll_chatObsEq]
  simp

/-- Claim C8: serializing a session collection to persistent storage and
loading it back reproduces an equal collection — the same sessions in the
same order, with equal message text, sender, ordering, timestamps, and
attachment preview data (preview representation and name).  (The raw
`file` binary is the one field not retained, as the spec itself notes.) -/
theorem saveLoad_roundtrip (chats : List (String × Chat)) :
    ∃ loaded, loadChatsFromStorage (saveChatsToStorage chats) = some loaded ∧
      chatsObsEq chats loaded = true :=
  ⟨_, loadChats_saveChats chats, chatsObsEq_strip chats⟩

theorem appendUserMessage_messages (c : Chat) (msg : String)
    (imgs : List ImageData) (now : Nat) :
    (appendUserMessage c msg imgs now).messages =
      c.messages ++
        [{ text := msg, sender := "user", images := imgs, timestamp := now }] := by
  simp only [appendUserMessage, updateChatTitle]
  split <;> rfl

theorem appendUserMessage_dropLast (c : Chat) (msg : String)
    (imgs : List ImageData) (now : Nat) :
    (appendUserMessage c msg imgs now).messages.dropLast = c.messages := by
  rw [appendUserMessage_messages]
  exact List.dropLast_concat

theorem appendUser_not_first (c : Chat) (msg : String) (u : Message)
    (hc : c.messages ≠ []) : ¬((c.messages ++ [u]).length = 1 ∧ msg ≠ "") :=
  fun h => hc (List.eq_nil_of_length_eq_zero (by simpa using h.1))

theorem appendUserMessage_title_first (c : Chat) (msg : String)
    (imgs : List ImageData) (now : Nat) (hc : c.messages = [])
    (hmsg : msg ≠ "") :
    (appendUserMessage c msg imgs now).title = deriveTitle msg := by
  simp only [appendUserMessage, updateChatTitle]
  rw [if_pos ⟨by simp [hc], hmsg⟩]

theorem appendUserMessage_title_empty (c : Chat) (imgs : List ImageData)
    (now : Nat) : (appendUserMessage c "" imgs now).title = c.title := by
  simp only [appendUserMessage, updateChatTitle]
  rw [if_neg (fun h => h.2 rfl)]

theorem appendUserMessage_title_nonfirst (c : Chat) (msg : String)
    (imgs : List ImageData) (now : Nat) (hc : c.messages ≠ []) :
    (appendUserMessage c msg imgs now).title = c.title := by
  simp only [appendUserMessage, updateChatTitle]
  rw [if_neg (appendUser_not_first c msg _ hc)]

theorem appendUserMessage_updatedAt_nonfirst (c : Chat) (msg : String)
    (imgs : List ImageData) (now : Nat) (hc : c.messages ≠ []) :
    (appendUserMessage c msg imgs now).updatedAt = c.updatedAt := by
  simp only [appendUserMessage, updateChatTitle]
  rw [if_neg (appendUser_not_first c msg _ hc)]

theorem appendUserMessage_updatedAt_first (c : Chat) (msg : String)
    (imgs : List ImageData) (now : Nat) (hc : c.messages = [])
    (hmsg : msg ≠ "") :
    (appendUserMessage c msg imgs now).updatedAt = now := by
  simp only [appendUserMessage, updateChatTitle]
  rw [if_pos ⟨by simp [hc], hmsg⟩]

theorem sendMessage_trivial_eq (c : Chat) (imgs : List ImageData)
    (input : String) (relay : RelayResult) (now now2 : Nat)
    (h : jsTrim input = "" ∧ imgs = []) :
    sendMessage c imgs input relay now now2 =
      { chat := c, selectedImages := imgs, request := none, errors := [] } := by
  unfold sendMessage
  rw [if_pos h]

theorem sendMessage_fail_eq (c : Chat) (imgs : List ImageData)
    (input : String) (relay : RelayResult) (now now2 : Nat)
    (hnt : ¬(jsTrim input = "" ∧ imgs = [])) (hf : relayFails relay = true) :
    sendMessage c imgs input relay now now2 =
      { chat := appendUserMessage c (jsTrim input) imgs now,
        selectedImages := [],
        request := some (composeRequest (jsTrim input) imgs
          ((appendUserMessage c (jsTrim input) imgs now).messages.dropLast)),
        errors := [failMessage relay] } := by
  unfold sendMessage
  rw [if_neg hnt]
  cases relay with
  | network m => rfl
  | http status body =>
    dsimp only [failMessage]
    by_cases hok : respOk status = false
    · rw [if_pos hok, if_pos hok]
    · rw [if_neg hok]
      have herr : errTruthy body.error = true := by
        simp only [relayFails] at hf
        cases hb : respOk status with
        | false => exact absurd hb hok
        | true => rw [hb] at hf; simpa using hf
      rw [if_pos herr, if_neg hok]

theorem sendMessage_success_eq (c : Chat) (imgs : List ImageData)
    (input : String) (status : Nat) (body : RelayBody) (now now2 : Nat)
    (hnt : ¬(jsTrim input = "" ∧ imgs = [])) (hok : respOk status = true)
    (herr : errTruthy body.error = false) :
    sendMessage c imgs input (.http status body) now now2 =
      { chat := appendAssistantMessage
          (appendUserMessage c (jsTrim input) imgs now) body.response now2,
        selectedImages := [],
        request := some (composeRequest (jsTrim input) imgs
          ((appendUserMessage c (jsTrim input) imgs now).messages.dropLast)),
        errors := [] } := by
  unfold sendMessage
  rw [if_neg hnt]
  dsimp only
  rw [if_neg (by simp [hok]), if_neg (by simp [herr])]

theorem relay_not_fails (status : Nat) (body : RelayBody)
    (hf : ¬relayFails (.http status body) = true) :
    respOk status = true ∧ errTruthy body.error = false := by
  constructor
  · cases hb : respOk status with
    | false => exact absurd (by simp [relayFails, hb]) hf
    | true => rfl
  · cases hb : errTruthy body.error with
    | false => rfl
    | true => exact absurd (by simp [relayFails, hb]) hf

theorem sendMessage_chat_title (c : Chat) (imgs : List ImageData)
    (input : String) (relay : RelayResult) (now now2 : Nat)
    (hnt : ¬(jsTrim input = "" ∧ imgs = [])) :
    (sendMessage c imgs input relay now now2).chat.title =
      (appendUserMessage c (jsTrim input) imgs now).title := by
  by_cases hf : relayFails relay = true
  · rw [sendMessage_fail_eq c imgs input relay now now2 hnt hf]
  · cases relay with
    | network m => simp [relayFails] at hf
    | http status body =>
      obtain ⟨hok, herr⟩ := relay_not_fails status body hf
      rw [sendMessage_success_eq c imgs input status body now now2 hnt hok herr]
      rfl

theorem sendMessage_chat_request (c : Chat) (imgs : List ImageData)
    (input : String) (relay : RelayResult) (now now2 : Nat)
    (hnt : ¬(jsTrim input = "" ∧ imgs = [])) :
    (sendMessage c imgs input relay now now2).request =
      some (composeRequest (jsTrim input) imgs
        ((appendUserMessage c (jsTrim input) imgs now).messages.dropLast)) := by
  by_cases hf : relayFails relay = true
  · rw [sendMessage_fail_eq c imgs input relay now now2 hnt hf]
  · cases relay with
    | network m => simp [relayFails] at hf
    | http status body =>
      obtain ⟨hok, herr⟩ := relay_not_fails status body hf
      rw [sendMessage_success_eq c imgs input status body now now2 hnt hok herr]

theorem filter_images_map (imgs : List ImageData) :
    (((imgs.map fun i => ("images", FormValue.file i.file)).filter
      fun f => f.1 == "images").map Prod.snd) =
      imgs.map fun i => FormValue.file i.file := by
  induction imgs with
  | nil => rfl
  | cons i rest ih => simp [ih]

/-- Claim C2 counterexample: a send whose relay response is status 429
with body `{error: "Rate limit exceeded..."}` surfaces the error entry
`Error: HTTP error! status: 429` — not the relay-supplied message, which
is never read for a non-success status. -/
theorem sendMessage_429_counterexample :
    (sendMessage exChat0 [] "hi"
      (.http 429 { error := some "Rate limit exceeded...", response := "" })
      1 2).errors = ["Error: HTTP error! status: 429"] ∧
    (sendMessage exChat0 [] "hi"
      (.http 429 { error := some "Rate limit exceeded...", response := "" })
      1 2).errors ≠ ["Rate limit exceeded..."] ∧
    (sendMessage exChat0 [] "hi"
      (.http 429 { error := some "Rate limit exceeded...", response := "" })
      1 2).errors ≠ ["Error: Rate limit exceeded..."] := by
  decide

/-- Claim C2 (amended): for every send whose relay response has a
non-success HTTP status, the surfaced error entry is
`Error: HTTP error! status: <status>` — the relay-supplied body message
is ignored for non-success statuses (it is surfaced only when a success
status carries a truthy body `error` field); no assistant message is
appended (the session gains exactly the one user message); and the staged
images are cleared regardless. -/
theorem sendMessage_httpError_spec (c : Chat) (imgs : List ImageData)
    (input : String) (status : Nat) (body : RelayBody) (now now2 : Nat)
    (hnt : ¬(jsTrim input = "" ∧ imgs = [])) (hst : respOk status = false) :
    (sendMessage c imgs input (.http status body) now now2).errors =
      ["Error: HTTP error! status: " ++ toString status] ∧
    (sendMessage c imgs input (.http status body) now now2).chat.messages =
      c.messages ++
        [{ text := jsTrim input, sender := "user", images := imgs,
           timestamp := now }] ∧
    (sendMessage c imgs input (.http status body) now now2).selectedImages =
      [] := by
  have hf : relayFails (.http status body) = true := by
    simp [relayFails, hst]
  rw [sendMessage_fail_eq c imgs input _ now now2 hnt hf]
  refine ⟨?_, appendUserMessage_messages c _ imgs now, rfl⟩
  show [failMessage (.http status body)] = _
  simp [failMessage, hst]

/-- Witness for the amended claim C2 at status 429. -/
theorem sendMessage_httpError_spec_witness :
    (sendMessage exChat0 [] "hi"
      (.http 429 { error := some "Rate limit exceeded...", response := "" })
      1 2).errors = ["Error: HTTP error! status: 429"] :=
  ((sendMessage_httpError_spec exChat0 [] "hi" 429
    { error := some "Rate limit exceeded...", response := "" } 1 2
    (by decide) (by decide)).1).trans (by decide)

/-- Claim C3: auto-title derivation — a first message whose trimmed text
has exactly 30 characters yields that text verbatim as the title; 31 or
more characters yield the first 30 characters followed by `"..."`; an
empty first text leaves the title `"New Chat"`; and a message appended to
a session that already has messages never re-derives the title. -/
theorem sendMessage_title_spec (c : Chat) (imgs : List ImageData)
    (input : String) (relay : RelayResult) (now now2 : Nat) :
    (c.messages = [] → (jsTrim input).length = 30 →
      (sendMessage c imgs input relay now now2).chat.title = jsTrim input) ∧
    (c.messages = [] → 31 ≤ (jsTrim input).length →
      (sendMessage c imgs input relay now now2).chat.title =
        jsSubstring (jsTrim input) 30 ++ "...") ∧
    (c.messages = [] → jsTrim input = "" → c.title = "New Chat" →
      (sendMessage c imgs input relay now now2).chat.title = "New Chat") ∧
    (c.messages ≠ [] →
      (sendMessage c imgs input relay now now2).chat.title = c.title) := by
  refine ⟨?_, ?_, ?_, ?_⟩
  · intro hc hlen
    have hmsg : jsTrim input ≠ "" := by
      intro h; rw [h] at hlen; simp at hlen
    rw [sendMessage_chat_title c imgs input relay now now2 (fun h => hmsg h.1),
      appendUserMessage_title_first c _ imgs now hc hmsg]
    unfold deriveTitle
    rw [if_neg (by omega)]
  · intro hc hlen
    have hmsg : jsTrim input ≠ "" := by
      intro h; rw [h] at hlen; simp at hlen
    rw [sendMessage_chat_title c imgs input relay now now2 (fun h => hmsg h.1),
      appendUserMessage_title_first c _ imgs now hc hmsg]
    unfold deriveTitle
    rw [if_pos (by omega)]
  · intro hc hempty htitle
    by_cases himgs : imgs = []
    · rw [sendMessage_trivial_eq c imgs input relay now now2 ⟨hempty, himgs⟩]
      exact htitle
    · rw [sendMessage_chat_title c imgs input relay now now2
        (fun h => himgs h.2), hempty, appendUserMessage_title_empty]
      exact htitle
  · intro hc
    by_cases hnt : jsTrim input = "" ∧ imgs = []
    · rw [sendMessage_trivial_eq c imgs input relay now now2 hnt]
    · rw [sendMessage_chat_title c imgs input relay now now2 hnt]
      exact appendUserMessage_title_nonfirst c _ imgs now hc

/-- Witness for claim C3: a first message of exactly 30 characters
becomes the title verbatim. -/
theorem sendMessage_title_spec_witness :
    (sendMessage exChat0 [] "aaaaaaaaaaaaaaaaaaaaaaaaaaaaaa"
      (.http 200 { error := none, response := "ok" }) 1 2).chat.title =
      "aaaaaaaaaaaaaaaaaaaaaaaaaaaaaa" :=
  ((sendMessage_title_spec exChat0 [] "aaaaaaaaaaaaaaaaaaaaaaaaaaaaaa"
    (.http 200 { error := none, response := "ok" }) 1 2).1 rfl
    (by decide)).trans (by decide)

/-- Claim C5: composing a request with zero staged attachments yields the
JSON body carrying exactly the provided (trimmed) text under `message`
and the full prior history under `conversation` — always included, even
when the history is empty — with the `Content-Type: application/json`
header. -/
theorem sendMessage_json_body_spec (c : Chat) (input : String)
    (relay : RelayResult) (now now2 : Nat) (h : jsTrim input ≠ "") :
    (sendMessage c [] input relay now now2).request =
      some (RequestBody.json (jsTrim input) c.messages,
        [("Content-Type", "application/json")]) := by
  rw [sendMessage_chat_request c [] input relay now now2 (fun hh => h hh.1),
    appendUserMessage_dropLast]
  rfl

/-- Witness for claim C5 on a session with one prior message. -/
theorem sendMessage_json_body_spec_witness :
    (sendMessage exChatOld [] "hello"
      (.http 200 { error := none, response := "Hi" }) 10 11).request =
      some (RequestBody.json "hello" exChatOld.messages,
        [("Content-Type", "application/json")]) :=
  (sendMessage_json_body_spec exChatOld "hello"
    (.http 200 { error := none, response := "Hi" }) 10 11
    (by decide)).trans (by decide)

/-- Claim C6: composing a request with N ≥ 1 staged attachments yields a
multipart form body whose ordered fields are `message`, `conversation`
(the JSON text of the prior history) and then exactly one `images` entry
per staged attachment, in staging order, with no manually set
content-type header (the header list is empty). -/
theorem sendMessage_multipart_spec (c : Chat) (imgs : List ImageData)
    (input : String) (relay : RelayResult) (now now2 : Nat)
    (h : imgs ≠ []) :
    (sendMessage c imgs input relay now now2).request =
      some (RequestBody.form
        ([("message", FormValue.str (jsTrim input)),
          ("conversation", FormValue.str
            (Json.render (Json.arr (c.messages.map messageToJson))))] ++
          imgs.map (fun i => ("images", FormValue.file i.file))), []) ∧
    ((([("message", FormValue.str (jsTrim input)),
        ("conversation", FormValue.str
          (Json.render (Json.arr (c.messages.map messageToJson))))] ++
        imgs.map (fun i => ("images", FormValue.file i.file))).filter
          fun f => f.1 == "images").map Prod.snd) =
      imgs.map (fun i => FormValue.file i.file) := by
  constructor
  · rw [sendMessage_chat_request c imgs input relay now now2
      (fun hh => h hh.2), appendUserMessage_dropLast]
    unfold composeRequest
    rw [if_pos h]
  · rw [List.filter_append]
    simp [filter_images_map]

/-- Witness for claim C6: two staged images produce two `images` entries
in staging order and an empty header list. -/
theorem sendMessage_multipart_spec_witness :
    (sendMessage exChat0 [exImg1, exImg2] "hi"
      (.http 200 { error := none, response := "ok" }) 1 2).request =
      some (RequestBody.form
        [("message", FormValue.str "hi"),
         ("conversation", FormValue.str "[]"),
         ("images", FormValue.file "f1"),
         ("images", FormValue.file "f2")], []) :=
  ((sendMessage_multipart_spec exChat0 [exImg1, exImg2] "hi"
    (.http 200 { error := none, response := "ok" }) 1 2
    (by decide)).1).trans (by decide)

/-- Claim C9 (amended): appending the assistant message refreshes the
session's `updatedAt`; appending the user message refreshes it only when
it is the session's first message with non-empty text (through the title
derivation); a user message appended to a non-empty session leaves
`updatedAt` unchanged, so in particular a failed send does not refresh
it. -/
theorem sendMessage_updatedAt_spec (c : Chat) (imgs : List ImageData)
    (input : String) (relay : RelayResult) (now now2 : Nat) :
    (∀ status body, relay = RelayResult.http status body →
      respOk status = true → errTruthy body.error = false →
      ¬(jsTrim input = "" ∧ imgs = []) →
      (sendMessage c imgs input relay now now2).chat.updatedAt = now2) ∧
    (relayFails relay = true → c.messages ≠ [] →
      (sendMessage c imgs input relay now now2).chat.updatedAt =
        c.updatedAt) ∧
    (relayFails relay = true → c.messages = [] → jsTrim input ≠ "" →
      (sendMessage c imgs input relay now now2).chat.updatedAt = now) := by
  refine ⟨?_, ?_, ?_⟩
  · intro status body hrel hok herr hnt
    subst hrel
    rw [sendMessage_success_eq c imgs input status body now now2 hnt hok herr]
    rfl
  · intro hf hc
    by_cases hnt : jsTrim input = "" ∧ imgs = []
    · rw [sendMessage_trivial_eq c imgs input relay now now2 hnt]
    · rw [sendMessage_fail_eq c imgs input relay now now2 hnt hf]
      exact appendUserMessage_updatedAt_nonfirst c _ imgs now hc
  · intro hf hc hmsg
    rw [sendMessage_fail_eq c imgs input relay now now2 (fun h => hmsg h.1) hf]
    exact appendUserMessage_updatedAt_first c _ imgs now hc hmsg

/-- Claim C9 counterexample: a send to a session that already has one
message, with the relay failing (status 500), appends the user message
yet leaves `updatedAt` at its old value 5 — appending a message does not
always set `updatedAt` to the current time. -/
theorem sendMessage_updatedAt_counterexample :
    (sendMessage exChatOld [] "hi"
      (.http 500 { error := none, response := "" }) 10 11).chat.messages.length =
      exChatOld.messages.length + 1 ∧
    (sendMessage exChatOld [] "hi"
      (.http 500 { error := none, response := "" }) 10 11).chat.updatedAt = 5 ∧
    (sendMessage exChatOld [] "hi"
      (.http 500 { error := none, response := "" }) 10 11).chat.updatedAt ≠ 10 ∧
    (sendMessage exChatOld [] "hi"
      (.http 500 { error := none, response := "" }) 10 11).chat.updatedAt ≠ 11 := by
  decide

/-- Witness for the amended claim C9: a successful send refreshes
`updatedAt` to the assistant-append time. -/
theorem sendMessage_updatedAt_spec_witness :
    (sendMessage exChatOld [] "hello"
      (.http 200 { error := none, response := "Hi" }) 10 11).chat.updatedAt =
      11 :=
  (sendMessage_updatedAt_spec exChatOld [] "hello"
    (.http 200 { error := none, response := "Hi" }) 10 11).1 200
    { error := none, response := "Hi" } rfl rfl rfl (by decide)

/-- Claim C10: when a send fails (any relay or network error), the user
message appended before the request is retained — the message sequence is
not rolled back, and the session's messages after the failed send equal
the messages before the send plus exactly that one user message (in
particular, no assistant message is appended). -/
theorem sendMessage_failure_retains_message (c : Chat)
    (imgs : List ImageData) (input : String) (relay : RelayResult)
    (now now2 : Nat) (hnt : ¬(jsTrim input = "" ∧ imgs = []))
    (hf : relayFails relay = true) :
    (sendMessage c imgs input relay now now2).chat.messages =
      c.messages ++
        [{ text := jsTrim input, sender := "user", images := imgs,
           timestamp := now }] := by
  rw [sendMessage_fail_eq c imgs input relay now now2 hnt hf]
  exact appendUserMessage_messages c _ imgs now

/-- Witness for claim C10 at a network failure. -/
theorem sendMessage_failure_retains_message_witness :
    (sendMessage exChatOld [] "hi" (RelayResult.network "Failed to fetch")
      10 11).chat.messages =
      exChatOld.messages ++
        [{ text := "hi", sender := "user", images := [],
           timestamp := 10 }] :=
  (sendMessage_failure_retains_message exChatOld [] "hi"
    (RelayResult.network "Failed to fetch") 10 11 (by decide) rfl).trans
    (by decide)

end UnblockedGPT
